import Mathlib

/-!
Verification of the exercise-form evaluation core of the realfyoasis
repository (files src/utils/poseUtils.js, src/utils/squatRules.js and
src/utils/pushupRules.js).

The JavaScript code computes with IEEE doubles; we model coordinates over an
arbitrary linear ordered field (instantiated at the rationals for concrete
evaluation and at the reals where the transcendental angle functions are
needed).  The two transcendental subroutines, calculateAngle (built on
Math.atan2) and calculate3DAngle (built on Math.acos), are modelled over the
reals; the classifier and evaluator functions take the 3D (and, for the
evaluators, the 2D) angle function as an explicit function parameter, exactly
as they consume those subroutines in the source.  A JavaScript value that may
be null or undefined is modelled as an Option.
-/

/-- A MediaPipe landmark: `{x, y, z, visibility}` (source: data model used
throughout poseUtils.js). -/
structure Point (α : Type) where
  x : α
  y : α
  z : α
  visibility : α
deriving DecidableEq, Repr

/-- Squat phases, source SQUAT_PHASES in squatRules.js. -/
inductive SquatPhase
  | standing
  | descending
  | bottom
  | ascending
deriving DecidableEq, Repr

/-- Push-up phases, source PUSHUP_PHASES in pushupRules.js. -/
inductive PushupPhase
  | top
  | descending
  | bottom
  | ascending
deriving DecidableEq, Repr

/-- Result of a form evaluator: `{isCorrect, issues, angles}`.  The angles
field is an association list mirroring the JS object literal; it is `none` on
the short-circuit paths where the JS result object has no angles key. -/
structure EvalResult (α : Type) where
  isCorrect : Bool
  issues : List String
  angles : Option (List (String × α))
deriving DecidableEq, Repr

variable {α : Type} [LinearOrderedField α]

/-- JavaScript `v || d` for a possibly-null number v: null and 0 are falsy,
so both select the default d (source: `prevHipHeight || 0` and
`prevHipHeight || 1` in determineSquatPhase). -/
def jsOr (v : Option α) (d : α) : α :=
  match v with
  | none => d
  | some x => if x = 0 then d else x

/-- JavaScript numeric coercion of a possibly-null number used directly in a
comparison: ToNumber(null) = 0 (source: `avgElbowAngle > prevElbowAngle` and
`avgElbowAngle < prevElbowAngle` in determinePushupPhase where
prevElbowAngle may be null). -/
def jsNum (v : Option α) : α :=
  v.getD 0

/-- Source isPointVisible in poseUtils.js:
`point && point.visibility > minConfidence`.  An absent (undefined) point is
falsy.  The JS default minConfidence = 0.5 is passed explicitly by the
callers in this embedding. -/
def isPointVisible (point : Option (Point α)) (minConfidence : α) : Bool :=
  match point with
  | none => false
  | some p => decide (p.visibility > minConfidence)

/-- The 17 named landmarks produced by getNamedLandmarks, each possibly
undefined when the frame array is shorter than its fixed index (source:
landmarkIndices and getNamedLandmarks in poseUtils.js). -/
structure NamedLandmarks (α : Type) where
  nose : Option (Point α)
  leftEye : Option (Point α)
  rightEye : Option (Point α)
  leftEar : Option (Point α)
  rightEar : Option (Point α)
  leftShoulder : Option (Point α)
  rightShoulder : Option (Point α)
  leftElbow : Option (Point α)
  rightElbow : Option (Point α)
  leftWrist : Option (Point α)
  rightWrist : Option (Point α)
  leftHip : Option (Point α)
  rightHip : Option (Point α)
  leftKnee : Option (Point α)
  rightKnee : Option (Point α)
  leftAnkle : Option (Point α)
  rightAnkle : Option (Point α)
deriving DecidableEq, Repr

/-- Source getNamedLandmarks in poseUtils.js: returns null when the landmark
array is null/empty, otherwise a name-to-point mapping by fixed index lookup
(landmarkIndices).  A null input array behaves identically to an empty one, so
both are modelled by the empty list. -/
def getNamedLandmarks (landmarks : List (Point α)) : Option (NamedLandmarks α) :=
  if landmarks.isEmpty then none
  else some
    { nose := landmarks[0]?
      leftEye := landmarks[1]?
      rightEye := landmarks[2]?
      leftEar := landmarks[3]?
      rightEar := landmarks[4]?
      leftShoulder := landmarks[5]?
      rightShoulder := landmarks[6]?
      leftElbow := landmarks[7]?
      rightElbow := landmarks[8]?
      leftWrist := landmarks[9]?
      rightWrist := landmarks[10]?
      leftHip := landmarks[11]?
      rightHip := landmarks[12]?
      leftKnee := landmarks[13]?
      rightKnee := landmarks[14]?
      leftAnkle := landmarks[15]?
      rightAnkle := landmarks[16]? }

/-- Phase decision of determineSquatPhase (squatRules.js lines 170-188) on the
already-computed average knee angle and hip height: the standing / descending
/ ascending branch cascade followed by the bottom promotion. -/
def squatPhaseUpdate (avgKneeAngle hipHeight : α) (prevPhase : SquatPhase)
    (prevHipHeight : Option α) : SquatPhase :=
  let phase0 :=
    if avgKneeAngle > 160 then SquatPhase.standing
    else if avgKneeAngle < 110 ∧ hipHeight > jsOr prevHipHeight 0 then SquatPhase.descending
    else if avgKneeAngle < 110 ∧ hipHeight < jsOr prevHipHeight 1 then SquatPhase.ascending
    else prevPhase
  -- Bottom position is the lowest point of the squat
  if phase0 = SquatPhase.descending ∧ prevPhase = SquatPhase.descending ∧
      hipHeight < jsOr prevHipHeight 1 then
    SquatPhase.bottom
  else phase0

/-- The measurement part of determineSquatPhase: average hip height and
average knee angle, available exactly when the frame is non-empty and all six
leg landmarks pass the visibility check.  Returns (avgKneeAngle, hipHeight). -/
def squatFrameData (angle3D : Point α → Point α → Point α → α)
    (landmarks : List (Point α)) : Option (α × α) :=
  match getNamedLandmarks landmarks with
  | none => none
  | some n =>
    if isPointVisible n.leftHip (1/2) && isPointVisible n.rightHip (1/2) &&
        isPointVisible n.leftKnee (1/2) && isPointVisible n.rightKnee (1/2) &&
        isPointVisible n.leftAnkle (1/2) && isPointVisible n.rightAnkle (1/2) then
      match n.leftHip, n.rightHip, n.leftKnee, n.rightKnee, n.leftAnkle, n.rightAnkle with
      | some leftHip, some rightHip, some leftKnee, some rightKnee,
        some leftAnkle, some rightAnkle =>
        let hipHeight := (leftHip.y + rightHip.y) / 2
        let leftKneeAngle := angle3D leftHip leftKnee leftAnkle
        let rightKneeAngle := angle3D rightHip rightKnee rightAnkle
        some ((leftKneeAngle + rightKneeAngle) / 2, hipHeight)
      | _, _, _, _, _, _ => none
    else none

/-- Source determineSquatPhase in squatRules.js.  The angle3D parameter is
calculate3DAngle in the source; it is passed as a function argument here.
Returns the pair `{phase, hipHeight}`. -/
def determineSquatPhase (angle3D : Point α → Point α → Point α → α)
    (landmarks : List (Point α)) (prevPhase : SquatPhase)
    (prevHipHeight : Option α) : SquatPhase × Option α :=
  match squatFrameData angle3D landmarks with
  | none => (prevPhase, prevHipHeight)
  | some (avgKneeAngle, hipHeight) =>
    (squatPhaseUpdate avgKneeAngle hipHeight prevPhase prevHipHeight, some hipHeight)

/-- Phase decision of determinePushupPhase (pushupRules.js lines 56-74) on the
already-computed average elbow angle: the top / descending / ascending branch
cascade followed by the bottom promotion.  The comparisons with a possibly
null prevElbowAngle use the JS coercion ToNumber(null) = 0. -/
def pushupPhaseUpdate (avgElbowAngle : α) (prevPhase : PushupPhase)
    (prevElbowAngle : Option α) : PushupPhase :=
  let phase0 :=
    if avgElbowAngle > 150 then PushupPhase.top
    else if avgElbowAngle < 120 ∧
        (prevElbowAngle = none ∨ avgElbowAngle < jsNum prevElbowAngle) then
      PushupPhase.descending
    else if avgElbowAngle < 120 ∧ avgElbowAngle > jsNum prevElbowAngle then
      PushupPhase.ascending
    else prevPhase
  -- Bottom position is the lowest point of the push-up
  if phase0 = PushupPhase.descending ∧ prevPhase = PushupPhase.descending ∧
      avgElbowAngle > jsNum prevElbowAngle then
    PushupPhase.bottom
  else phase0

/-- The measurement part of determinePushupPhase: average elbow angle,
available exactly when the frame is non-empty and all six arm landmarks pass
the visibility check. -/
def pushupFrameData (angle3D : Point α → Point α → Point α → α)
    (landmarks : List (Point α)) : Option α :=
  match getNamedLandmarks landmarks with
  | none => none
  | some n =>
    if isPointVisible n.leftShoulder (1/2) && isPointVisible n.rightShoulder (1/2) &&
        isPointVisible n.leftElbow (1/2) && isPointVisible n.rightElbow (1/2) &&
        isPointVisible n.leftWrist (1/2) && isPointVisible n.rightWrist (1/2) then
      match n.leftShoulder, n.rightShoulder, n.leftElbow, n.rightElbow,
          n.leftWrist, n.rightWrist with
      | some leftShoulder, some rightShoulder, some leftElbow, some rightElbow,
        some leftWrist, some rightWrist =>
        let leftElbowAngle := angle3D leftShoulder leftElbow leftWrist
        let rightElbowAngle := angle3D rightShoulder rightElbow rightWrist
        some ((leftElbowAngle + rightElbowAngle) / 2)
      | _, _, _, _, _, _ => none
    else none

/-- Source determinePushupPhase in pushupRules.js.  The angle3D parameter is
calculate3DAngle in the source.  Returns the pair `{phase, elbowAngle}`. -/
def determinePushupPhase (angle3D : Point α → Point α → Point α → α)
    (landmarks : List (Point α)) (prevPhase : PushupPhase)
    (prevElbowAngle : Option α) : PushupPhase × Option α :=
  match pushupFrameData angle3D landmarks with
  | none => (prevPhase, prevElbowAngle)
  | some avgElbowAngle =>
    (pushupPhaseUpdate avgElbowAngle prevPhase prevElbowAngle, some avgElbowAngle)

/-- The phase-gated issue list of evaluateSquatForm (squatRules.js lines
245-309); the JS conditional pushes on a mutable array are modelled as
concatenation of conditional singletons, preserving order.  Thresholds are the
THRESHOLDS constants of squatRules.js: MAX_KNEE_ANGLE = 100,
MIN_KNEE_ANGLE = 70, MAX_HIP_ANGLE = 110, MIN_HIP_ANGLE = 70,
MAX_BACK_LEAN = 45, MAX_KNEE_FORWARD = 0.1, MAX_KNEE_INWARD = 0.1. -/
def squatIssues (leftKneeAngle rightKneeAngle leftHipAngle rightHipAngle backAngle : α)
    (leftKnee rightKnee leftAnkle rightAnkle : Point α) (phase : SquatPhase) :
    List String :=
  match phase with
  | SquatPhase.bottom =>
    (if leftKneeAngle > 100 ∨ rightKneeAngle > 100 then ["Knees not bent enough"] else []) ++
    (if leftKneeAngle < 70 ∨ rightKneeAngle < 70 then ["Knees bent too much"] else []) ++
    (if leftHipAngle > 110 ∨ rightHipAngle > 110 then ["Hips not bent enough"] else []) ++
    (if leftHipAngle < 70 ∨ rightHipAngle < 70 then ["Hips bent too much"] else []) ++
    (if backAngle > 45 then ["Back leaning too far forward"] else []) ++
    (if leftKnee.z < leftAnkle.z - 1/10 ∨ rightKnee.z < rightAnkle.z - 1/10 then
      ["Knees too far forward of toes"] else []) ++
    (if |leftKnee.x - leftAnkle.x| > 1/10 ∨ |rightKnee.x - rightAnkle.x| > 1/10 then
      ["Knees not aligned with toes"] else [])
  | SquatPhase.descending =>
    (if backAngle > 45 then ["Back leaning too far forward"] else []) ++
    (if |leftKnee.x - leftAnkle.x| > 1/10 ∨ |rightKnee.x - rightAnkle.x| > 1/10 then
      ["Knees not aligned with toes"] else [])
  | SquatPhase.ascending =>
    (if backAngle > 45 then ["Back leaning too far forward"] else []) ++
    (if |leftKnee.x - leftAnkle.x| > 1/10 ∨ |rightKnee.x - rightAnkle.x| > 1/10 then
      ["Knees not aligned with toes"] else [])
  | SquatPhase.standing =>
    (if leftKneeAngle < 160 ∨ rightKneeAngle < 160 then
      ["Not fully standing between reps"] else []) ++
    (if backAngle > 20 then ["Not standing upright between reps"] else [])

/-- Source evaluateSquatForm in squatRules.js.  angle3D stands for
calculate3DAngle and angle2D for calculateAngle, consumed as function
parameters.  The result is none only on the (unreachable, by the visibility
guard) path where a required landmark is absent after the guard passed; the JS
function would throw on an undefined property access there. -/
def evaluateSquatForm (angle3D angle2D : Point α → Point α → Point α → α)
    (landmarks : List (Point α)) (phase : SquatPhase) : Option (EvalResult α) :=
  match getNamedLandmarks landmarks with
  | none => some { isCorrect := false, issues := ["No landmarks detected"], angles := none }
  | some n =>
    -- requiredLandmarks.some(landmark => !isPointVisible(landmark, 0.5))
    if isPointVisible n.leftShoulder (1/2) && isPointVisible n.rightShoulder (1/2) &&
        isPointVisible n.leftHip (1/2) && isPointVisible n.rightHip (1/2) &&
        isPointVisible n.leftKnee (1/2) && isPointVisible n.rightKnee (1/2) &&
        isPointVisible n.leftAnkle (1/2) && isPointVisible n.rightAnkle (1/2) then
      match n.leftShoulder, n.rightShoulder, n.leftHip, n.rightHip,
          n.leftKnee, n.rightKnee, n.leftAnkle, n.rightAnkle with
      | some leftShoulder, some rightShoulder, some leftHip, some rightHip,
        some leftKnee, some rightKnee, some leftAnkle, some rightAnkle =>
        let leftKneeAngle := angle3D leftHip leftKnee leftAnkle
        let rightKneeAngle := angle3D rightHip rightKnee rightAnkle
        let leftHipAngle := angle3D leftShoulder leftHip leftKnee
        let rightHipAngle := angle3D rightShoulder rightHip rightKnee
        -- synthetic midpoints; the visibility component is unused by the
        -- source angle subroutines, which read only x, y, z
        let midShoulder : Point α :=
          ⟨(leftShoulder.x + rightShoulder.x) / 2, (leftShoulder.y + rightShoulder.y) / 2,
            (leftShoulder.z + rightShoulder.z) / 2, 0⟩
        let midHip : Point α :=
          ⟨(leftHip.x + rightHip.x) / 2, (leftHip.y + rightHip.y) / 2,
            (leftHip.z + rightHip.z) / 2, 0⟩
        let verticalRef : Point α := ⟨midHip.x, 0, midHip.z, 0⟩
        let backAngle := angle2D verticalRef midHip midShoulder
        let issues := squatIssues leftKneeAngle rightKneeAngle leftHipAngle rightHipAngle
          backAngle leftKnee rightKnee leftAnkle rightAnkle phase
        some
          { isCorrect := issues.isEmpty
            issues := issues
            angles := some
              [("leftKnee", leftKneeAngle), ("rightKnee", rightKneeAngle),
                ("leftHip", leftHipAngle), ("rightHip", rightHipAngle),
                ("back", backAngle)] }
      | _, _, _, _, _, _, _, _ => none
    else some { isCorrect := false, issues := ["Some key landmarks not visible"], angles := none }

/-- The phase-gated issue list of evaluatePushupForm (pushupRules.js lines
138-191).  Thresholds are the THRESHOLDS constants of pushupRules.js:
MAX_ELBOW_ANGLE = 100, MIN_ELBOW_ANGLE = 70, MIN_TOP_ELBOW_ANGLE = 150,
MAX_BACK_SAG = 15, MAX_BACK_PIKE = 15, MAX_NECK_ANGLE = 30. -/
def pushupIssues (leftElbowAngle rightElbowAngle backAngle neckAngle : α)
    (phase : PushupPhase) : List String :=
  match phase with
  | PushupPhase.bottom =>
    (if leftElbowAngle > 100 ∨ rightElbowAngle > 100 then ["Not going deep enough"] else []) ++
    (if leftElbowAngle < 70 ∨ rightElbowAngle < 70 then ["Elbows bent too much"] else []) ++
    (if backAngle > 15 then ["Back sagging too much"]
      else if backAngle < -15 then ["Hips too high (piking)"] else []) ++
    (if |neckAngle| > 30 then ["Neck not in neutral position"] else [])
  | PushupPhase.top =>
    (if leftElbowAngle < 150 ∨ rightElbowAngle < 150 then
      ["Arms not fully extended at top"] else []) ++
    (if backAngle > 15 then ["Back sagging too much"]
      else if backAngle < -15 then ["Hips too high (piking)"] else [])
  | PushupPhase.descending =>
    (if backAngle > 15 then ["Back sagging too much"]
      else if backAngle < -15 then ["Hips too high (piking)"] else []) ++
    (if |neckAngle| > 30 then ["Neck not in neutral position"] else [])
  | PushupPhase.ascending =>
    (if backAngle > 15 then ["Back sagging too much"]
      else if backAngle < -15 then ["Hips too high (piking)"] else []) ++
    (if |neckAngle| > 30 then ["Neck not in neutral position"] else [])

/-- Source evaluatePushupForm in pushupRules.js.  angle3D stands for
calculate3DAngle and angle2D for calculateAngle.  After the visibility guard
on the eight required landmarks, the source additionally reads nose, leftEye
and rightEye without any guard; when one of those is absent the JS function
throws on an undefined property access, modelled by none. -/
def evaluatePushupForm (angle3D angle2D : Point α → Point α → Point α → α)
    (landmarks : List (Point α)) (phase : PushupPhase) : Option (EvalResult α) :=
  match getNamedLandmarks landmarks with
  | none => some { isCorrect := false, issues := ["No landmarks detected"], angles := none }
  | some n =>
    -- requiredLandmarks.some(landmark => !isPointVisible(landmark, 0.5))
    if isPointVisible n.leftShoulder (1/2) && isPointVisible n.rightShoulder (1/2) &&
        isPointVisible n.leftElbow (1/2) && isPointVisible n.rightElbow (1/2) &&
        isPointVisible n.leftWrist (1/2) && isPointVisible n.rightWrist (1/2) &&
        isPointVisible n.leftHip (1/2) && isPointVisible n.rightHip (1/2) then
      match n.leftShoulder, n.rightShoulder, n.leftElbow, n.rightElbow,
          n.leftWrist, n.rightWrist, n.leftHip, n.rightHip,
          n.nose, n.leftEye, n.rightEye with
      | some leftShoulder, some rightShoulder, some leftElbow, some rightElbow,
        some leftWrist, some rightWrist, some leftHip, some rightHip,
        some nose, some leftEye, some rightEye =>
        let leftElbowAngle := angle3D leftShoulder leftElbow leftWrist
        let rightElbowAngle := angle3D rightShoulder rightElbow rightWrist
        let midShoulder : Point α :=
          ⟨(leftShoulder.x + rightShoulder.x) / 2, (leftShoulder.y + rightShoulder.y) / 2,
            (leftShoulder.z + rightShoulder.z) / 2, 0⟩
        let midHip : Point α :=
          ⟨(leftHip.x + rightHip.x) / 2, (leftHip.y + rightHip.y) / 2,
            (leftHip.z + rightHip.z) / 2, 0⟩
        let horizontalRef : Point α := ⟨midShoulder.x + 1, midShoulder.y, midShoulder.z, 0⟩
        let backAngle := angle2D horizontalRef midShoulder midHip
        let midEye : Point α :=
          ⟨(leftEye.x + rightEye.x) / 2, (leftEye.y + rightEye.y) / 2,
            (leftEye.z + rightEye.z) / 2, 0⟩
        let neckAngle := angle2D midShoulder nose midEye
        let issues := pushupIssues leftElbowAngle rightElbowAngle backAngle neckAngle phase
        some
          { isCorrect := issues.isEmpty
            issues := issues
            angles := some
              [("leftElbow", leftElbowAngle), ("rightElbow", rightElbowAngle),
                ("back", backAngle), ("neck", neckAngle)] }
      | _, _, _, _, _, _, _, _, _, _, _ => none
    else some { isCorrect := false, issues := ["Some key landmarks not visible"], angles := none }

/-- Issue list of an evaluation outcome; the empty list for the thrown
(none) outcome. -/
def resultIssues (r : Option (EvalResult α)) : List String :=
  match r with
  | none => []
  | some e => e.issues

/-- JavaScript Math.atan2(y, x): the angle of the point (x, y), in
(-pi, pi], with Math.atan2(0, 0) = 0 (signed zeros are not modelled over
the reals). -/
noncomputable def atan2 (y x : ℝ) : ℝ :=
  if 0 < x then Real.arctan (y / x)
  else if x < 0 then
    (if 0 ≤ y then Real.arctan (y / x) + Real.pi else Real.arctan (y / x) - Real.pi)
  else
    (if 0 < y then Real.pi / 2 else if y < 0 then -(Real.pi / 2) else 0)

/-- Source calculateAngle in poseUtils.js: difference of the two atan2
bearings, converted to degrees, absolute value, reflected below 180. -/
noncomputable def calculateAngle (a b c : Point ℝ) : ℝ :=
  let radians := atan2 (c.y - b.y) (c.x - b.x) - atan2 (a.y - b.y) (a.x - b.x)
  let angle := |radians * 180 / Real.pi|
  if angle > 180 then 360 - angle else angle

/-- Source calculate3DAngle in poseUtils.js: arccosine of the normalized dot
product of the vectors b to a and b to c, in degrees. -/
noncomputable def calculate3DAngle (a b c : Point ℝ) : ℝ :=
  let vectorBAx := a.x - b.x
  let vectorBAy := a.y - b.y
  let vectorBAz := a.z - b.z
  let vectorBCx := c.x - b.x
  let vectorBCy := c.y - b.y
  let vectorBCz := c.z - b.z
  let dotProduct := vectorBAx * vectorBCx + vectorBAy * vectorBCy + vectorBAz * vectorBCz
  let magnitudeBA := Real.sqrt (vectorBAx ^ 2 + vectorBAy ^ 2 + vectorBAz ^ 2)
  let magnitudeBC := Real.sqrt (vectorBCx ^ 2 + vectorBCy ^ 2 + vectorBCz ^ 2)
  Real.arccos (dotProduct / (magnitudeBA * magnitudeBC)) * 180 / Real.pi

/-- A 17-point test frame: every landmark at x = 0, z = 0 with visibility 1
and the given y coordinate (so the average hip height is h and every
landmark passes the visibility check). -/
def testFrame (h : ℚ) : List (Point ℚ) :=
  [⟨0, h, 0, 1⟩, ⟨0, h, 0, 1⟩, ⟨0, h, 0, 1⟩, ⟨0, h, 0, 1⟩, ⟨0, h, 0, 1⟩,
    ⟨0, h, 0, 1⟩, ⟨0, h, 0, 1⟩, ⟨0, h, 0, 1⟩, ⟨0, h, 0, 1⟩, ⟨0, h, 0, 1⟩,
    ⟨0, h, 0, 1⟩, ⟨0, h, 0, 1⟩, ⟨0, h, 0, 1⟩, ⟨0, h, 0, 1⟩, ⟨0, h, 0, 1⟩,
    ⟨0, h, 0, 1⟩, ⟨0, h, 0, 1⟩]

/-- A 17-point test frame whose landmarks all have visibility exactly 1/2:
non-empty, but every landmark fails the strict visibility check. -/
def halfVisFrame : List (Point ℚ) :=
  [⟨0, 0, 0, 1/2⟩, ⟨0, 0, 0, 1/2⟩, ⟨0, 0, 0, 1/2⟩, ⟨0, 0, 0, 1/2⟩, ⟨0, 0, 0, 1/2⟩,
    ⟨0, 0, 0, 1/2⟩, ⟨0, 0, 0, 1/2⟩, ⟨0, 0, 0, 1/2⟩, ⟨0, 0, 0, 1/2⟩, ⟨0, 0, 0, 1/2⟩,
    ⟨0, 0, 0, 1/2⟩, ⟨0, 0, 0, 1/2⟩, ⟨0, 0, 0, 1/2⟩, ⟨0, 0, 0, 1/2⟩, ⟨0, 0, 0, 1/2⟩,
    ⟨0, 0, 0, 1/2⟩, ⟨0, 0, 0, 1/2⟩]

/-- A test 3D-angle function realizing the knee-angle sequence 150, 100, 100
on the three frames testFrame (1/5), testFrame (2/5), testFrame (3/10): it
reads only the hip (first) argument. -/
def kneeAngleSeq : Point ℚ → Point ℚ → Point ℚ → ℚ :=
  fun a _ _ => if a.y = 1/5 then 150 else 100

lemma arctan_nonpos_of_nonpos {x : ℝ} (h : x ≤ 0) : Real.arctan x ≤ 0 := by
  have := Real.arctan_strictMono.monotone h
  rwa [Real.arctan_zero] at this

lemma arctan_nonneg_of_nonneg {x : ℝ} (h : 0 ≤ x) : 0 ≤ Real.arctan x := by
  have := Real.arctan_strictMono.monotone h
  rwa [Real.arctan_zero] at this

lemma atan2_le_pi (y x : ℝ) : atan2 y x ≤ Real.pi := by
  have hpi := Real.pi_pos
  unfold atan2
  split_ifs with h1 h2 h3 h4 h5
  · have := Real.arctan_lt_pi_div_two (y / x)
    linarith
  · have hyx : y / x ≤ 0 := div_nonpos_of_nonneg_of_nonpos h3 h2.le
    have := arctan_nonpos_of_nonpos hyx
    linarith
  · have := Real.arctan_lt_pi_div_two (y / x)
    linarith
  · linarith
  · linarith
  · linarith

lemma neg_pi_le_atan2 (y x : ℝ) : -Real.pi ≤ atan2 y x := by
  have hpi := Real.pi_pos
  unfold atan2
  split_ifs with h1 h2 h3 h4 h5
  · have := Real.neg_pi_div_two_lt_arctan (y / x)
    linarith
  · have := Real.neg_pi_div_two_lt_arctan (y / x)
    linarith
  · have hy : y < 0 := lt_of_not_le h3
    have hyx : 0 ≤ y / x := div_nonneg_iff.mpr (Or.inr ⟨hy.le, h2.le⟩)
    have := arctan_nonneg_of_nonneg hyx
    linarith
  · linarith
  · linarith
  · linarith

lemma calculateAngle_nonneg (a b c : Point ℝ) : 0 ≤ calculateAngle a b c := by
  unfold calculateAngle
  set r := atan2 (c.y - b.y) (c.x - b.x) - atan2 (a.y - b.y) (a.x - b.x) with hr
  have habs : (0:ℝ) ≤ |r * 180 / Real.pi| := abs_nonneg _
  have hub : |r * 180 / Real.pi| ≤ 360 := by
    have hpi := Real.pi_pos
    have h1 : |r| ≤ 2 * Real.pi := by
      have ha := atan2_le_pi (c.y - b.y) (c.x - b.x)
      have hb := neg_pi_le_atan2 (c.y - b.y) (c.x - b.x)
      have hc := atan2_le_pi (a.y - b.y) (a.x - b.x)
      have hd := neg_pi_le_atan2 (a.y - b.y) (a.x - b.x)
      rw [abs_le]
      constructor <;> [skip; skip] <;> simp only [hr] <;> linarith
    have h2 : |r * 180 / Real.pi| = |r| * 180 / Real.pi := by
      rw [abs_div, abs_mul]
      simp [abs_of_pos hpi]
    rw [h2]
    rw [div_le_iff₀ hpi]
    calc |r| * 180 ≤ (2 * Real.pi) * 180 := by nlinarith [abs_nonneg r]
      _ = 360 * Real.pi := by ring
  dsimp only
  split_ifs with h
  · linarith
  · linarith

lemma calculateAngle_le_180 (a b c : Point ℝ) : calculateAngle a b c ≤ 180 := by
  unfold calculateAngle
  dsimp only
  split_ifs with h
  · linarith
  · exact le_of_not_lt h

lemma mem_ite_singleton {s t : String} {c : Prop} [Decidable c] :
    (s ∈ if c then [t] else []) ↔ (c ∧ s = t) := by
  split_ifs with h <;> simp [h]

lemma getNamedLandmarks_of_ne_nil {frame : List (Point α)} (h : frame ≠ []) :
    getNamedLandmarks frame = some
      { nose := frame[0]?, leftEye := frame[1]?, rightEye := frame[2]?,
        leftEar := frame[3]?, rightEar := frame[4]?,
        leftShoulder := frame[5]?, rightShoulder := frame[6]?,
        leftElbow := frame[7]?, rightElbow := frame[8]?,
        leftWrist := frame[9]?, rightWrist := frame[10]?,
        leftHip := frame[11]?, rightHip := frame[12]?,
        leftKnee := frame[13]?, rightKnee := frame[14]?,
        leftAnkle := frame[15]?, rightAnkle := frame[16]? } := by
  unfold getNamedLandmarks
  rw [if_neg (by simpa [List.isEmpty_iff] using h)]

lemma pushupIssues_count_piking_eq_zero (leftElbowAngle rightElbowAngle backAngle neckAngle : α)
    (hba : 0 ≤ backAngle) (phase : PushupPhase) :
    (pushupIssues leftElbowAngle rightElbowAngle backAngle neckAngle phase).count
      "Hips too high (piking)" = 0 := by
  have h15 : ¬(backAngle < -15) := by
    intro hlt
    have : (-15 : α) < 0 := by norm_num
    linarith
  cases phase <;> unfold pushupIssues <;> split_ifs <;> first | decide | (exfalso; exact h15 (by assumption))

lemma evaluatePushupForm_count_piking_eq_zero
    (angle3D angle2D : Point α → Point α → Point α → α)
    (h2D : ∀ a b c, 0 ≤ angle2D a b c) (frame : List (Point α)) (phase : PushupPhase) :
    (resultIssues (evaluatePushupForm angle3D angle2D frame phase)).count
      "Hips too high (piking)" = 0 := by
  unfold evaluatePushupForm
  rcases hn : getNamedLandmarks frame with _ | n <;> simp only [hn]
  · rfl
  · split
    · split
      · exact pushupIssues_count_piking_eq_zero _ _ _ _ (h2D _ _ _) _
      · rfl
    · rfl

/-- Claim C5: for all ordered triples of points a, b, c with a distinct from b
and c distinct from b, the 2D angle calculateAngle a b c lies in the closed
interval from 0 to 180 degrees. -/
theorem calculateAngle_mem_Icc (a b c : Point ℝ) (hab : a ≠ b) (hcb : c ≠ b) :
    0 ≤ calculateAngle a b c ∧ calculateAngle a b c ≤ 180 :=
  ⟨calculateAngle_nonneg a b c, calculateAngle_le_180 a b c⟩

/-- Witness for C5 at a concrete non-degenerate triple. -/
theorem calculateAngle_mem_Icc_witness :
    0 ≤ calculateAngle ⟨0, 0, 0, 1⟩ ⟨1, 0, 0, 1⟩ ⟨1, 1, 0, 1⟩ ∧
      calculateAngle ⟨0, 0, 0, 1⟩ ⟨1, 0, 0, 1⟩ ⟨1, 1, 0, 1⟩ ≤ 180 :=
  calculateAngle_mem_Icc _ _ _ (by simp [Point.mk.injEq]) (by simp [Point.mk.injEq])

/-- Claim C8: isPointVisible point t is true iff the point exists and its
visibility strictly exceeds t; in particular a point whose visibility equals
t exactly is reported not visible.  (The JS default t = 0.5 is passed
explicitly by the callers in this embedding.) -/
theorem isPointVisible_iff (point : Option (Point α)) (t : α) :
    (isPointVisible point t = true ↔ ∃ p, point = some p ∧ p.visibility > t) ∧
    (∀ p, point = some p → p.visibility = t → isPointVisible point t = false) := by
  constructor
  · cases point with
    | none => simp [isPointVisible]
    | some p => simp [isPointVisible]
  · intro p hp hv
    subst hp
    simp [isPointVisible, hv]

/-- Witness for C8: a point with visibility exactly 1/2 is not visible at
threshold 1/2. -/
theorem isPointVisible_iff_witness :
    isPointVisible (some (⟨0, 0, 0, 1/2⟩ : Point ℚ)) (1/2) = false :=
  (isPointVisible_iff (some (⟨0, 0, 0, 1/2⟩ : Point ℚ)) (1/2)).2 _ rfl rfl

/-- Claim C9: evaluatePushupForm with the source angle functions never
produces the issue string for piking: the back angle is computed by
calculateAngle, which is always non-negative, while the piking branch
requires the back angle to be below -15, so that branch is unreachable. -/
theorem evaluatePushupForm_never_piking (frame : List (Point ℝ)) (phase : PushupPhase) :
    (resultIssues (evaluatePushupForm calculate3DAngle calculateAngle frame phase)).count
      "Hips too high (piking)" = 0 :=
  evaluatePushupForm_count_piking_eq_zero calculate3DAngle calculateAngle
    (fun a b c => calculateAngle_nonneg a b c) frame phase

lemma jsOr_some_ne_zero {m : α} (h : m ≠ 0) (d : α) : jsOr (some m) d = m := by
  simp [jsOr, h]

lemma squatPhaseUpdate_bottom {k h : α} {p : SquatPhase} {m : Option α}
    (hb : squatPhaseUpdate k h p m = SquatPhase.bottom) (hp : p ≠ SquatPhase.bottom) :
    p = SquatPhase.descending := by
  unfold squatPhaseUpdate at hb
  dsimp only at hb
  split_ifs at hb <;> simp_all

lemma pushupPhaseUpdate_bottom {k : α} {p : PushupPhase} {m : Option α}
    (hb : pushupPhaseUpdate k p m = PushupPhase.bottom) (hp : p ≠ PushupPhase.bottom) :
    p = PushupPhase.descending := by
  unfold pushupPhaseUpdate at hb
  dsimp only at hb
  split_ifs at hb <;> simp_all

/-- Claim C2: when either phase classifier returns bottom and the returned
phase differs from the previous phase, the previous phase was descending. -/
theorem bottom_only_after_descending :
    (∀ (angle3D : Point α → Point α → Point α → α) (landmarks : List (Point α))
      (prevPhase : SquatPhase) (prevHipHeight : Option α),
      (determineSquatPhase angle3D landmarks prevPhase prevHipHeight).1 = SquatPhase.bottom →
      (determineSquatPhase angle3D landmarks prevPhase prevHipHeight).1 ≠ prevPhase →
      prevPhase = SquatPhase.descending) ∧
    (∀ (angle3D : Point α → Point α → Point α → α) (landmarks : List (Point α))
      (prevPhase : PushupPhase) (prevElbowAngle : Option α),
      (determinePushupPhase angle3D landmarks prevPhase prevElbowAngle).1 = PushupPhase.bottom →
      (determinePushupPhase angle3D landmarks prevPhase prevElbowAngle).1 ≠ prevPhase →
      prevPhase = PushupPhase.descending) := by
  constructor
  · intro a3 lm p m hb hne
    unfold determineSquatPhase at hb hne
    rcases hd : squatFrameData a3 lm with _ | ⟨k, hh⟩ <;> simp only [hd] at hb hne
    · exact absurd rfl hne
    · exact squatPhaseUpdate_bottom hb (fun hpb => hne (hb.trans hpb.symm))
  · intro a3 lm p m hb hne
    unfold determinePushupPhase at hb hne
    rcases hd : pushupFrameData a3 lm with _ | k <;> simp only [hd] at hb hne
    · exact absurd rfl hne
    · exact pushupPhaseUpdate_bottom hb (fun hpb => hne (hb.trans hpb.symm))

/-- Witness for C2 at a concrete frame on which the squat classifier promotes
to bottom from a previous descending phase. -/
theorem bottom_only_after_descending_witness :
    SquatPhase.descending = SquatPhase.descending :=
  (bottom_only_after_descending (α := ℚ)).1 (fun _ _ _ => 130) (testFrame (3/10))
    SquatPhase.descending (some (1/2))
    (by norm_num [determineSquatPhase, squatFrameData, getNamedLandmarks, testFrame,
      isPointVisible, squatPhaseUpdate, jsOr])
    (by
      norm_num [determineSquatPhase, squatFrameData, getNamedLandmarks, testFrame,
        isPointVisible, squatPhaseUpdate, jsOr]
      decide)

lemma isPointVisible_eq_false {q : Option (Point α)}
    (h : q = none ∨ ∃ p, q = some p ∧ p.visibility ≤ 1/2) :
    isPointVisible q (1/2) = false := by
  rcases h with h | ⟨p, hp, hv⟩
  · subst h; rfl
  · subst hp
    simp only [isPointVisible, decide_eq_false_iff_not]
    exact not_lt.mpr hv

lemma squatFrameData_eq_none (angle3D : Point α → Point α → Point α → α)
    (frame : List (Point α))
    (hcond : frame = [] ∨ ∃ i ∈ ([11, 12, 13, 14, 15, 16] : List ℕ),
      frame[i]? = none ∨ ∃ p, frame[i]? = some p ∧ p.visibility ≤ 1/2) :
    squatFrameData angle3D frame = none := by
  rcases hcond with rfl | ⟨i, hi, hv⟩
  · rfl
  · by_cases hnil : frame = []
    · subst hnil; rfl
    · have hfalse : isPointVisible (frame[i]?) ((2 : α)⁻¹) = false := by
        rw [← one_div]; exact isPointVisible_eq_false hv
      unfold squatFrameData
      rw [getNamedLandmarks_of_ne_nil hnil]
      dsimp only
      fin_cases hi <;> simp [hfalse]

lemma pushupFrameData_eq_none (angle3D : Point α → Point α → Point α → α)
    (frame : List (Point α))
    (hcond : frame = [] ∨ ∃ i ∈ ([5, 6, 7, 8, 9, 10] : List ℕ),
      frame[i]? = none ∨ ∃ p, frame[i]? = some p ∧ p.visibility ≤ 1/2) :
    pushupFrameData angle3D frame = none := by
  rcases hcond with rfl | ⟨i, hi, hv⟩
  · rfl
  · by_cases hnil : frame = []
    · subst hnil; rfl
    · have hfalse : isPointVisible (frame[i]?) ((2 : α)⁻¹) = false := by
        rw [← one_div]; exact isPointVisible_eq_false hv
      unfold pushupFrameData
      rw [getNamedLandmarks_of_ne_nil hnil]
      dsimp only
      fin_cases hi <;> simp [hfalse]

/-- Claim C4: when the frame is empty or one of the six required classifier
landmarks (hips, knees, ankles for squat; shoulders, elbows, wrists for
push-up) is absent or has visibility at most 0.5, the classifier returns the
previous phase and the previous tracked metric both unchanged. -/
theorem phase_unchanged_on_missing :
    (∀ (angle3D : Point α → Point α → Point α → α) (frame : List (Point α))
      (prevPhase : SquatPhase) (prevHipHeight : Option α),
      (frame = [] ∨ ∃ i ∈ ([11, 12, 13, 14, 15, 16] : List ℕ),
        frame[i]? = none ∨ ∃ p, frame[i]? = some p ∧ p.visibility ≤ 1/2) →
      determineSquatPhase angle3D frame prevPhase prevHipHeight = (prevPhase, prevHipHeight)) ∧
    (∀ (angle3D : Point α → Point α → Point α → α) (frame : List (Point α))
      (prevPhase : PushupPhase) (prevElbowAngle : Option α),
      (frame = [] ∨ ∃ i ∈ ([5, 6, 7, 8, 9, 10] : List ℕ),
        frame[i]? = none ∨ ∃ p, frame[i]? = some p ∧ p.visibility ≤ 1/2) →
      determinePushupPhase angle3D frame prevPhase prevElbowAngle = (prevPhase, prevElbowAngle)) := by
  constructor
  · intro a3 frame p m hcond
    unfold determineSquatPhase
    rw [squatFrameData_eq_none a3 frame hcond]
  · intro a3 frame p m hcond
    unfold determinePushupPhase
    rw [pushupFrameData_eq_none a3 frame hcond]

/-- Witness for C4: a frame whose landmarks all have visibility exactly 1/2
leaves the squat classifier state unchanged. -/
theorem phase_unchanged_on_missing_witness :
    determineSquatPhase (fun _ _ _ => (0 : ℚ)) halfVisFrame SquatPhase.ascending (some 7) =
      (SquatPhase.ascending, some 7) :=
  (phase_unchanged_on_missing (α := ℚ)).1 _ _ _ _
    (Or.inr ⟨11, by decide, Or.inr ⟨⟨0, 0, 0, 1/2⟩, rfl, by norm_num⟩⟩)

/-- Counterexample to claim C10: with a strictly positive previous hip height
1/2, previous phase descending, and a frame with average knee angle 130 (the
phase is retained as descending, since 130 is neither above 160 nor below
110) and hip height 3/10 below the previous height, determineSquatPhase does
return bottom — the promotion fires although the previous metric is neither
null nor 0. -/
theorem squat_bottom_with_positive_prev_metric :
    (0 : ℚ) < 1/2 ∧
    determineSquatPhase (fun _ _ _ => (130 : ℚ)) (testFrame (3/10))
      SquatPhase.descending (some (1/2)) = (SquatPhase.bottom, some (3/10)) := by
  constructor
  · norm_num
  · norm_num [determineSquatPhase, squatFrameData, getNamedLandmarks, testFrame,
      isPointVisible, squatPhaseUpdate, jsOr]

/-- Claim C10 amended: when the computed average angle actually selects a
movement branch (average knee angle below 110 for squat with a strictly
positive previous hip height; average elbow angle below 120 for push-up with
a non-null previous elbow angle), the descending branch requires the metric to
move oppositely to the bottom-promotion test, so the classifier cannot return
bottom.  The original claim fails because the phase can also be retained as
descending (average angle in the neutral band), and then the promotion fires
for any previous metric value. -/
theorem no_bottom_from_movement_branch :
    (∀ (k h m : α), 0 < m → k < 110 →
      squatPhaseUpdate k h SquatPhase.descending (some m) ≠ SquatPhase.bottom) ∧
    (∀ (k m : α), k < 120 →
      pushupPhaseUpdate k PushupPhase.descending (some m) ≠ PushupPhase.bottom) := by
  constructor
  · intro k h m hm hk hbot
    have hm0 : m ≠ 0 := ne_of_gt hm
    unfold squatPhaseUpdate at hbot
    rw [jsOr_some_ne_zero hm0, jsOr_some_ne_zero hm0] at hbot
    dsimp only at hbot
    split_ifs at hbot <;> simp_all <;> linarith
  · intro k m hk hbot
    unfold pushupPhaseUpdate at hbot
    dsimp only at hbot
    simp only [jsNum, Option.getD_some] at hbot
    split_ifs at hbot <;> simp_all <;> linarith

/-- Witness for the amended C10: with previous hip height 1/2 and average
knee angle 100 (movement branch), the squat phase decision is not bottom. -/
theorem no_bottom_from_movement_branch_witness :
    squatPhaseUpdate (100 : ℚ) (3/10) SquatPhase.descending (some (1/2)) ≠ SquatPhase.bottom :=
  (no_bottom_from_movement_branch (α := ℚ)).1 100 (3/10) (1/2) (by norm_num) (by norm_num)

/-- Counterexample to claim C1: three fully visible frames with computed
average knee angles 150, 100, 100 and hip heights 1/5, 2/5, 3/10 (strictly
increasing from frame 1 to frame 2, strictly decreasing from frame 2 to
frame 3), threaded from the rest state (standing, null): frame 2 reports
descending as claimed, but frame 3 reports ascending, not bottom. -/
theorem squat_turnaround_not_bottom :
    squatFrameData kneeAngleSeq (testFrame (1/5)) = some (150, 1/5) ∧
    squatFrameData kneeAngleSeq (testFrame (2/5)) = some (100, 2/5) ∧
    squatFrameData kneeAngleSeq (testFrame (3/10)) = some (100, 3/10) ∧
    (1/5 : ℚ) < 2/5 ∧ (3/10 : ℚ) < 2/5 ∧
    determineSquatPhase kneeAngleSeq (testFrame (1/5)) SquatPhase.standing none =
      (SquatPhase.standing, some (1/5)) ∧
    determineSquatPhase kneeAngleSeq (testFrame (2/5)) SquatPhase.standing (some (1/5)) =
      (SquatPhase.descending, some (2/5)) ∧
    determineSquatPhase kneeAngleSeq (testFrame (3/10)) SquatPhase.descending (some (2/5)) =
      (SquatPhase.ascending, some (3/10)) := by
  refine ⟨?_, ?_, ?_, by norm_num, by norm_num, ?_, ?_, ?_⟩ <;>
    (norm_num [determineSquatPhase, squatFrameData, getNamedLandmarks, testFrame,
      isPointVisible, squatPhaseUpdate, jsOr, kneeAngleSeq] <;>
      exact fun h => nomatch h)

/-- Claim C1 amended: for every sequence of three fully visible frames whose
computed average knee angles are 150, 100, 100 and whose average hip height
strictly increases from frame 1 to frame 2 and strictly decreases from frame
2 to frame 3, threading phase and metric through determineSquatPhase from the
rest state: the call on frame 2 returns descending, and the call on frame 3
returns ascending (not bottom: the ascending branch fires at the turnaround,
and the bottom promotion requires the just-computed phase to be descending). -/
theorem squat_turnaround_amended
    (angle3D : Point α → Point α → Point α → α) (F1 F2 F3 : List (Point α)) (y1 y2 y3 : α)
    (d1 : squatFrameData angle3D F1 = some (150, y1))
    (d2 : squatFrameData angle3D F2 = some (100, y2))
    (d3 : squatFrameData angle3D F3 = some (100, y3))
    (hup : y1 < y2) (hdown : y3 < y2) :
    determineSquatPhase angle3D F1 SquatPhase.standing none = (SquatPhase.standing, some y1) ∧
    determineSquatPhase angle3D F2 SquatPhase.standing (some y1) =
      (SquatPhase.descending, some y2) ∧
    determineSquatPhase angle3D F3 SquatPhase.descending (some y2) =
      (SquatPhase.ascending, some y3) := by
  refine ⟨?_, ?_, ?_⟩
  · unfold determineSquatPhase
    rw [d1]
    unfold squatPhaseUpdate
    norm_num
    exact fun h => nomatch h
  · unfold determineSquatPhase
    rw [d2]
    unfold squatPhaseUpdate
    by_cases hy1 : y1 = 0
    · subst hy1
      norm_num [jsOr, hup]
      exact fun h => nomatch h
    · rw [jsOr_some_ne_zero hy1]
      norm_num [hup]
      exact fun h => nomatch h
  · unfold determineSquatPhase
    rw [d3]
    unfold squatPhaseUpdate
    by_cases hy2 : y2 = 0
    · subst hy2
      have h31 : y3 < 1 := lt_trans hdown (by norm_num)
      norm_num [jsOr, not_lt.mpr hdown.le, h31,
        (⟨(fun h => nomatch h), False.elim⟩ :
          SquatPhase.ascending = SquatPhase.descending ↔ False)]
      try exact fun h => nomatch h
    · rw [jsOr_some_ne_zero hy2, jsOr_some_ne_zero hy2]
      norm_num [hdown, not_lt.mpr hdown.le]
      try exact fun h => nomatch h

/-- Witness for the amended C1 at the concrete frame sequence realizing knee
angles 150, 100, 100 and hip heights 1/5, 2/5, 3/10. -/
theorem squat_turnaround_amended_witness :
    determineSquatPhase kneeAngleSeq (testFrame (1/5)) SquatPhase.standing none =
      (SquatPhase.standing, some (1/5)) ∧
    determineSquatPhase kneeAngleSeq (testFrame (2/5)) SquatPhase.standing (some (1/5)) =
      (SquatPhase.descending, some (2/5)) ∧
    determineSquatPhase kneeAngleSeq (testFrame (3/10)) SquatPhase.descending (some (2/5)) =
      (SquatPhase.ascending, some (3/10)) :=
  squat_turnaround_amended kneeAngleSeq (testFrame (1/5)) (testFrame (2/5)) (testFrame (3/10))
    (1/5) (2/5) (3/10)
    (by norm_num [squatFrameData, getNamedLandmarks, testFrame, isPointVisible, kneeAngleSeq])
    (by norm_num [squatFrameData, getNamedLandmarks, testFrame, isPointVisible, kneeAngleSeq])
    (by norm_num [squatFrameData, getNamedLandmarks, testFrame, isPointVisible, kneeAngleSeq])
    (by norm_num) (by norm_num)

/-- Claim C3: for every non-empty frame and every phase, if any landmark of
the evaluator required subset (shoulders, hips, knees, ankles for squat;
shoulders, elbows, wrists, hips for push-up) is absent or has visibility at
most 0.5, the evaluator returns exactly the result with isCorrect false, the
single issue string about landmarks, and no angles populated. -/
theorem missing_landmark_short_circuit :
    (∀ (a3 a2 : Point α → Point α → Point α → α) (frame : List (Point α)) (phase : SquatPhase),
      frame ≠ [] →
      (∃ i ∈ ([5, 6, 11, 12, 13, 14, 15, 16] : List ℕ),
        frame[i]? = none ∨ ∃ p, frame[i]? = some p ∧ p.visibility ≤ 1/2) →
      evaluateSquatForm a3 a2 frame phase =
        some { isCorrect := false, issues := ["Some key landmarks not visible"],
               angles := none }) ∧
    (∀ (a3 a2 : Point α → Point α → Point α → α) (frame : List (Point α)) (phase : PushupPhase),
      frame ≠ [] →
      (∃ i ∈ ([5, 6, 7, 8, 9, 10, 11, 12] : List ℕ),
        frame[i]? = none ∨ ∃ p, frame[i]? = some p ∧ p.visibility ≤ 1/2) →
      evaluatePushupForm a3 a2 frame phase =
        some { isCorrect := false, issues := ["Some key landmarks not visible"],
               angles := none }) := by
  constructor
  · intro a3 a2 frame phase hne hex
    obtain ⟨i, hi, hv⟩ := hex
    have hfalse : isPointVisible (frame[i]?) ((2 : α)⁻¹) = false := by
      rw [← one_div]; exact isPointVisible_eq_false hv
    unfold evaluateSquatForm
    rw [getNamedLandmarks_of_ne_nil hne]
    dsimp only
    fin_cases hi <;> simp [hfalse]
  · intro a3 a2 frame phase hne hex
    obtain ⟨i, hi, hv⟩ := hex
    have hfalse : isPointVisible (frame[i]?) ((2 : α)⁻¹) = false := by
      rw [← one_div]; exact isPointVisible_eq_false hv
    unfold evaluatePushupForm
    rw [getNamedLandmarks_of_ne_nil hne]
    dsimp only
    fin_cases hi <;> simp [hfalse]

/-- Witness for C3: in a non-empty frame whose landmarks have visibility
exactly 1/2, the squat evaluator returns exactly the short-circuit result. -/
theorem missing_landmark_short_circuit_witness :
    evaluateSquatForm (fun _ _ _ => (0 : ℚ)) (fun _ _ _ => 0) halfVisFrame SquatPhase.bottom =
      some { isCorrect := false, issues := ["Some key landmarks not visible"],
             angles := none } :=
  (missing_landmark_short_circuit (α := ℚ)).1 _ _ _ _ (by simp [halfVisFrame])
    ⟨5, by decide, Or.inr ⟨⟨0, 0, 0, 1/2⟩, rfl, by norm_num⟩⟩

/-- Claim C6: for every frame and phase, any result returned by
evaluateSquatForm or evaluatePushupForm (the short-circuit results included)
has isCorrect true iff its issue list is empty. -/
theorem isCorrect_iff_no_issues :
    (∀ (a3 a2 : Point α → Point α → Point α → α) (frame : List (Point α))
      (phase : SquatPhase) (r : EvalResult α),
      evaluateSquatForm a3 a2 frame phase = some r → (r.isCorrect = true ↔ r.issues = [])) ∧
    (∀ (a3 a2 : Point α → Point α → Point α → α) (frame : List (Point α))
      (phase : PushupPhase) (r : EvalResult α),
      evaluatePushupForm a3 a2 frame phase = some r → (r.isCorrect = true ↔ r.issues = [])) := by
  constructor
  · intro a3 a2 frame phase r hr
    unfold evaluateSquatForm at hr
    rcases hn : getNamedLandmarks frame with _ | n <;> simp only [hn] at hr
    · cases hr; simp
    · split at hr
      · split at hr
        · cases hr; simp [List.isEmpty_iff]
        · exact nomatch hr
      · cases hr; simp
  · intro a3 a2 frame phase r hr
    unfold evaluatePushupForm at hr
    rcases hn : getNamedLandmarks frame with _ | n <;> simp only [hn] at hr
    · cases hr; simp
    · split at hr
      · split at hr
        · cases hr; simp [List.isEmpty_iff]
        · exact nomatch hr
      · cases hr; simp

/-- Witness for C6 on the empty-frame short-circuit result of the squat
evaluator. -/
theorem isCorrect_iff_no_issues_witness :
    (({ isCorrect := false, issues := ["No landmarks detected"], angles := none } :
        EvalResult ℚ).isCorrect = true ↔
      ({ isCorrect := false, issues := ["No landmarks detected"], angles := none } :
        EvalResult ℚ).issues = []) :=
  (isCorrect_iff_no_issues (α := ℚ)).1 (fun _ _ _ => 0) (fun _ _ _ => 0) [] SquatPhase.standing
    { isCorrect := false, issues := ["No landmarks detected"], angles := none } rfl

lemma mem_knees_squatIssues_bottom (lka rka lha rha ba : α) (lk rk la ra : Point α) :
    ("Knees not bent enough" ∈ squatIssues lka rka lha rha ba lk rk la ra SquatPhase.bottom) ↔
      (lka > 100 ∨ rka > 100) := by
  unfold squatIssues
  by_cases hc : lka > 100 ∨ rka > 100
  · refine ⟨fun _ => hc, fun _ => ?_⟩
    rw [if_pos hc]
    exact List.mem_append_left _ (List.mem_append_left _ (List.mem_append_left _
      (List.mem_append_left _ (List.mem_append_left _ (List.mem_append_left _
        (List.mem_singleton.mpr rfl))))))
  · rw [if_neg hc]
    refine ⟨fun hm => ?_, fun h => absurd h hc⟩
    exfalso
    simp only [List.nil_append, List.mem_append, mem_ite_singleton] at hm
    rcases hm with ((((hm | hm) | hm) | hm) | hm) | hm <;>
      exact absurd hm.2 (by decide)

lemma squatIssues_bottom_not_empty (lka rka lha rha ba : α) (lk rk la ra : Point α)
    (hc : lka > 100 ∨ rka > 100) :
    (squatIssues lka rka lha rha ba lk rk la ra SquatPhase.bottom).isEmpty = false := by
  have hm : "Knees not bent enough" ∈ squatIssues lka rka lha rha ba lk rk la ra
      SquatPhase.bottom := (mem_knees_squatIssues_bottom lka rka lha rha ba lk rk la ra).mpr hc
  have hne := List.ne_nil_of_mem hm
  cases hie : (squatIssues lka rka lha rha ba lk rk la ra SquatPhase.bottom).isEmpty
  · rfl
  · exact absurd (List.isEmpty_iff.mp hie) hne

/-- Claim C7: with all eight required landmarks visible and phase bottom, the
squat evaluator reports the issue string about knees not bent enough exactly
when the computed left or right knee angle exceeds 100 degrees, and in that
case isCorrect is false. -/
theorem squat_bottom_knee_issue (a3 a2 : Point α → Point α → Point α → α)
    (frame : List (Point α)) (ls rs lh rh lk rk la ra : Point α)
    (h5 : frame[5]? = some ls) (h6 : frame[6]? = some rs)
    (h11 : frame[11]? = some lh) (h12 : frame[12]? = some rh)
    (h13 : frame[13]? = some lk) (h14 : frame[14]? = some rk)
    (h15 : frame[15]? = some la) (h16 : frame[16]? = some ra)
    (v5 : 1/2 < ls.visibility) (v6 : 1/2 < rs.visibility)
    (v11 : 1/2 < lh.visibility) (v12 : 1/2 < rh.visibility)
    (v13 : 1/2 < lk.visibility) (v14 : 1/2 < rk.visibility)
    (v15 : 1/2 < la.visibility) (v16 : 1/2 < ra.visibility) :
    ∃ r, evaluateSquatForm a3 a2 frame SquatPhase.bottom = some r ∧
      (("Knees not bent enough" ∈ r.issues) ↔ (a3 lh lk la > 100 ∨ a3 rh rk ra > 100)) ∧
      ((a3 lh lk la > 100 ∨ a3 rh rk ra > 100) → r.isCorrect = false) := by
  have hne : frame ≠ [] := by
    intro h
    rw [h] at h5
    exact nomatch h5
  have hguard : (isPointVisible (some ls) (1/2 : α) && isPointVisible (some rs) (1/2) &&
      isPointVisible (some lh) (1/2) && isPointVisible (some rh) (1/2) &&
      isPointVisible (some lk) (1/2) && isPointVisible (some rk) (1/2) &&
      isPointVisible (some la) (1/2) && isPointVisible (some ra) (1/2)) = true := by
    have n5 : (2 : α)⁻¹ < ls.visibility := by rw [← one_div]; exact v5
    have n6 : (2 : α)⁻¹ < rs.visibility := by rw [← one_div]; exact v6
    have n11 : (2 : α)⁻¹ < lh.visibility := by rw [← one_div]; exact v11
    have n12 : (2 : α)⁻¹ < rh.visibility := by rw [← one_div]; exact v12
    have n13 : (2 : α)⁻¹ < lk.visibility := by rw [← one_div]; exact v13
    have n14 : (2 : α)⁻¹ < rk.visibility := by rw [← one_div]; exact v14
    have n15 : (2 : α)⁻¹ < la.visibility := by rw [← one_div]; exact v15
    have n16 : (2 : α)⁻¹ < ra.visibility := by rw [← one_div]; exact v16
    simp [isPointVisible, n5, n6, n11, n12, n13, n14, n15, n16]
  unfold evaluateSquatForm
  rw [getNamedLandmarks_of_ne_nil hne]
  dsimp only
  rw [h5, h6, h11, h12, h13, h14, h15, h16, if_pos hguard]
  refine ⟨_, rfl, ?_, ?_⟩
  · exact mem_knees_squatIssues_bottom _ _ _ _ _ _ _ _ _
  · intro hc
    exact squatIssues_bottom_not_empty _ _ _ _ _ _ _ _ _ hc

/-- Witness for C7: a fully visible frame with both knee angles computed as
130 degrees (exceeding the 100 degree maximum) at phase bottom. -/
theorem squat_bottom_knee_issue_witness :
    ∃ r, evaluateSquatForm (fun _ _ _ => (130 : ℚ)) (fun _ _ _ => 0) (testFrame 0)
        SquatPhase.bottom = some r ∧
      (("Knees not bent enough" ∈ r.issues) ↔ ((130 : ℚ) > 100 ∨ (130 : ℚ) > 100)) ∧
      (((130 : ℚ) > 100 ∨ (130 : ℚ) > 100) → r.isCorrect = false) :=
  squat_bottom_knee_issue (fun _ _ _ => (130 : ℚ)) (fun _ _ _ => 0) (testFrame 0)
    ⟨0, 0, 0, 1⟩ ⟨0, 0, 0, 1⟩ ⟨0, 0, 0, 1⟩ ⟨0, 0, 0, 1⟩ ⟨0, 0, 0, 1⟩ ⟨0, 0, 0, 1⟩
    ⟨0, 0, 0, 1⟩ ⟨0, 0, 0, 1⟩ rfl rfl rfl rfl rfl rfl rfl rfl
    (by norm_num) (by norm_num) (by norm_num) (by norm_num)
    (by norm_num) (by norm_num) (by norm_num) (by norm_num)
